import Mathlib

set_option autoImplicit false

namespace GoOtel

/-!
Shallow embedding of the go-otel-sample task service.

Sources embedded here:
- internal/model (task data model, requests, domain errors);
- internal/repository/task.go (in-memory task store);
- internal/handler/task.go (HTTP handlers and metric recording);
- internal/telemetry (metric instruments, histogram boundaries, periodic reader);
- cmd/server/main.go (startup/shutdown sequencing of the telemetry providers).

Go wall-clock times (time.Now) are modelled as Nat clock ticks threaded as
explicit arguments; request durations are rationals (seconds). The Go map
backing the store is modelled as an association list with Go map semantics
(read, replace-or-add write, delete).
-/

/-- Task record, from model.Task. Timestamps are Nat clock ticks. -/
structure Task where
  id : String
  title : String
  description : String
  done : Bool
  createdAt : Nat
  updatedAt : Nat
deriving Repr, DecidableEq

/-- Request body for creating a task, from model.CreateTaskRequest. -/
structure CreateTaskRequest where
  title : String
  description : String
deriving Repr, DecidableEq

/-- Request body for updating a task, from model.UpdateTaskRequest: Title and
Description are plain strings (empty means absent), Done is an optional bool. -/
structure UpdateTaskRequest where
  title : String
  description : String
  done : Option Bool
deriving Repr, DecidableEq

/-- Domain errors, from model.TaskError values ErrTaskNotFound / ErrTitleRequired. -/
inductive TaskError where
  | taskNotFound
  | titleRequired
deriving Repr, DecidableEq

/-- Error message carried by each model.TaskError value. -/
def TaskError.message : TaskError → String
  | .taskNotFound => "task not found"
  | .titleRequired => "title is required"

/-- CreateTaskRequest.Validate: rejects an empty title. -/
def CreateTaskRequest.validate (r : CreateTaskRequest) : Except TaskError Unit :=
  if r.title = "" then .error .titleRequired else .ok ()

/-- In-memory task store, from repository.TaskRepository: the Go
map[string]*model.Task is modelled as an association list. -/
structure TaskRepository where
  tasks : List (String × Task)
deriving Repr, DecidableEq

/-- NewTaskRepository: the empty store. -/
def TaskRepository.empty : TaskRepository := ⟨[]⟩

/-- Go map read tasks[id]. -/
def TaskRepository.lookup (r : TaskRepository) (id : String) : Option Task :=
  (r.tasks.find? (fun p => p.1 == id)).map Prod.snd

/-- Go map write tasks[k] = v: replaces the entry when the key is present,
adds the entry otherwise. -/
def TaskRepository.insert (r : TaskRepository) (k : String) (v : Task) : TaskRepository :=
  if r.tasks.any (fun p => p.1 == k) then
    ⟨r.tasks.map (fun p => if p.1 == k then (k, v) else p)⟩
  else
    ⟨r.tasks ++ [(k, v)]⟩

/-- Go map delete(tasks, k). -/
def TaskRepository.erase (r : TaskRepository) (k : String) : TaskRepository :=
  ⟨r.tasks.filter (fun p => !(p.1 == k))⟩

/-- TaskRepository.Create (repository/task.go 31-54): builds the task with a
fresh uuid, both timestamps set to now, Done false, and stores it. The uuid
produced by uuid.New and the time produced by time.Now are explicit arguments. -/
def TaskRepository.create (r : TaskRepository) (uuid : String) (now : Nat)
    (req : CreateTaskRequest) : TaskRepository × Except TaskError Task :=
  let task : Task :=
    { id := uuid, title := req.title, description := req.description,
      done := false, createdAt := now, updatedAt := now }
  (r.insert task.id task, .ok task)

/-- TaskRepository.GetByID (repository/task.go 57-74): map read, ErrTaskNotFound
when absent. The store is not modified (the Go method only takes a read lock). -/
def TaskRepository.getByID (r : TaskRepository) (id : String) : Except TaskError Task :=
  match r.lookup id with
  | none => .error .taskNotFound
  | some t => .ok t

/-- TaskRepository.List (repository/task.go 77-91): returns all stored tasks. -/
def TaskRepository.list (r : TaskRepository) : Except TaskError (List Task) :=
  .ok (r.tasks.map Prod.snd)

/-- TaskRepository.Update (repository/task.go 94-122): ErrTaskNotFound when the
id is absent; otherwise applies non-empty Title, non-empty Description and
non-nil Done to the stored task and stamps UpdatedAt with now. -/
def TaskRepository.update (r : TaskRepository) (id : String) (now : Nat)
    (req : UpdateTaskRequest) : TaskRepository × Except TaskError Task :=
  match r.lookup id with
  | none => (r, .error .taskNotFound)
  | some task =>
    let task1 := if req.title = "" then task else { task with title := req.title }
    let task2 :=
      if req.description = "" then task1 else { task1 with description := req.description }
    let task3 :=
      match req.done with
      | none => task2
      | some d => { task2 with done := d }
    let task4 := { task3 with updatedAt := now }
    (r.insert id task4, .ok task4)

/-- TaskRepository.Delete (repository/task.go 125-142): ErrTaskNotFound when the
id is absent; otherwise removes the entry. -/
def TaskRepository.delete (r : TaskRepository) (id : String) :
    TaskRepository × Except TaskError Unit :=
  match r.lookup id with
  | none => (r, .error .taskNotFound)
  | some _ => (r.erase id, .ok ())

/-- TaskRepository.Count (repository/task.go 145-149): int64(len(r.tasks)),
modelled as the Nat length of the store. -/
def TaskRepository.count (r : TaskRepository) : Nat := r.tasks.length

/-- Model of the uuid.New().String() generator: the n-th call yields a string of
length n + 1, so distinct calls yield distinct ids, which is the freshness
property the uuid library provides. -/
def uuidGen (n : Nat) : String := String.mk (List.replicate (n + 1) 'u')

/-! Trace machinery for the store invariant: a sequence of repository
operations run from the empty store, with the uuid generator threaded as a
counter and bookkeeping of creations and successful deletions. -/

/-- One repository mutation, as issued by the handlers. -/
inductive RepoOp where
  | createOp (req : CreateTaskRequest)
  | updateOp (id : String) (req : UpdateTaskRequest)
  | deleteOp (id : String)
deriving Repr

/-- State threaded through a sequence of repository operations: the store, the
uuid-generator counter, and counts of creations and successful deletions. -/
structure TraceState where
  repo : TaskRepository
  nextUuid : Nat
  created : Nat
  deleted : Nat
deriving Repr

/-- Initial state: the store of NewTaskRepository and a fresh uuid generator. -/
def TraceState.init : TraceState := ⟨TaskRepository.empty, 0, 0, 0⟩

/-- Execute one repository operation at wall-clock time now. -/
def stepOp (st : TraceState) (op : RepoOp) (now : Nat) : TraceState :=
  match op with
  | .createOp req =>
    let res := st.repo.create (uuidGen st.nextUuid) now req
    { repo := res.1, nextUuid := st.nextUuid + 1,
      created := st.created + 1, deleted := st.deleted }
  | .updateOp id req =>
    { st with repo := (st.repo.update id now req).1 }
  | .deleteOp id =>
    let res := st.repo.delete id
    match res.2 with
    | .ok _ => { st with repo := res.1, deleted := st.deleted + 1 }
    | .error _ => { st with repo := res.1 }

/-- Run a sequence of timed repository operations from a given state. -/
def runFrom (st : TraceState) (ops : List (RepoOp × Nat)) : TraceState :=
  ops.foldl (fun s p => stepOp s p.1 p.2) st

/-- Run a sequence of timed repository operations from the empty store. -/
def runTrace (ops : List (RepoOp × Nat)) : TraceState :=
  runFrom TraceState.init ops

/-- Store well-formedness maintained by every trace: every key was produced by
a past uuid-generator call (so its length is at most nextUuid), and keys are
pairwise distinct. -/
def TraceState.Inv (st : TraceState) : Prop :=
  (∀ s ∈ st.repo.tasks.map Prod.fst, s.length ≤ st.nextUuid) ∧
    (st.repo.tasks.map Prod.fst).Nodup

/-- Bookkeeping balance preserved by every trace: live records plus successful
deletions equal creations, together with store well-formedness. -/
def Good (st : TraceState) : Prop :=
  st.Inv ∧ st.repo.count + st.deleted = st.created

/-! Metric instruments and events, from internal/telemetry and the handler's
recordMetrics. -/

/-- The three instruments created by telemetry.NewMetrics. -/
inductive Instrument where
  | requestCounter
  | requestDuration
  | tasksGauge
deriving Repr, DecidableEq

/-- Attribute set attached by recordMetrics: http.method, http.route,
http.status_code. -/
structure MetricAttrs where
  method : String
  route : String
  statusCode : Nat
deriving Repr, DecidableEq

/-- One synchronous (push-style) metric recording: a counter Add or a
histogram Record against a named instrument. -/
inductive MetricEvent where
  | counterAdd (inst : Instrument) (value : Int) (attrs : MetricAttrs)
  | histRecord (inst : Instrument) (value : ℚ) (attrs : MetricAttrs)
deriving Repr, DecidableEq

/-- Instrument targeted by a push-style metric event. -/
def MetricEvent.instrument : MetricEvent → Instrument
  | .counterAdd inst _ _ => inst
  | .histRecord inst _ _ => inst

/-- Number of counter increments in a list of metric events. -/
def countCounterAdds (evs : List MetricEvent) : Nat :=
  (evs.filter (fun e => match e with | .counterAdd _ _ _ => true | _ => false)).length

/-- Number of histogram duration observations in a list of metric events. -/
def countHistRecords (evs : List MetricEvent) : Nat :=
  (evs.filter (fun e => match e with | .histRecord _ _ _ => true | _ => false)).length

/-- TaskHandler.recordMetrics (handler/task.go 241-252): one increment of the
request counter and one observation of the request-duration histogram, both
carrying the method, route and status-code attributes. The elapsed duration
(seconds) is an explicit argument. -/
def recordMetrics (method route : String) (status : Nat) (duration : ℚ) : List MetricEvent :=
  [ .counterAdd .requestCounter 1 ⟨method, route, status⟩,
    .histRecord .requestDuration duration ⟨method, route, status⟩ ]

/-! Handler layer, from internal/handler/task.go. JSON decoding of a request
body is modelled as an Option (none = malformed body); the measured duration
and the wall-clock time are explicit arguments. -/

/-- Response payload written by a handler. -/
inductive ResponseBody where
  | empty
  | task (t : Task)
  | tasks (ts : List Task)
  | errorMessage (msg : String)
deriving Repr, DecidableEq

/-- Outcome of one handler execution: HTTP status, the push-style metric
events it recorded, and the response payload. -/
structure HandlerResult where
  status : Nat
  events : List MetricEvent
  body : ResponseBody
deriving Repr, DecidableEq

/-- Server-side state a handler can read and write: the store plus the uuid
generator consumed by Create. -/
structure ServerState where
  repo : TaskRepository
  nextUuid : Nat
deriving Repr, DecidableEq

/-- Initial server state: empty store, fresh uuid generator. -/
def ServerState.init : ServerState := ⟨TaskRepository.empty, 0⟩

/-- TaskHandler.List (handler/task.go 53-75). -/
def handleList (st : ServerState) (duration : ℚ) : ServerState × HandlerResult :=
  match st.repo.list with
  | .error _ =>
    (st, ⟨500, recordMetrics "GET" "/api/v1/tasks" 500 duration,
      .errorMessage "failed to list tasks"⟩)
  | .ok tasks =>
    (st, ⟨200, recordMetrics "GET" "/api/v1/tasks" 200 duration, .tasks tasks⟩)

/-- TaskHandler.Create (handler/task.go 78-115): bad body → 400, failed
validation → 400, repository error → 500, success → 201 with the new task. -/
def handleCreate (st : ServerState) (body : Option CreateTaskRequest) (now : Nat)
    (duration : ℚ) : ServerState × HandlerResult :=
  match body with
  | none =>
    (st, ⟨400, recordMetrics "POST" "/api/v1/tasks" 400 duration,
      .errorMessage "invalid request body"⟩)
  | some req =>
    match req.validate with
    | .error e =>
      (st, ⟨400, recordMetrics "POST" "/api/v1/tasks" 400 duration,
        .errorMessage e.message⟩)
    | .ok _ =>
      let res := st.repo.create (uuidGen st.nextUuid) now req
      let st1 : ServerState := ⟨res.1, st.nextUuid + 1⟩
      match res.2 with
      | .error _ =>
        (st1, ⟨500, recordMetrics "POST" "/api/v1/tasks" 500 duration,
          .errorMessage "failed to create task"⟩)
      | .ok task =>
        (st1, ⟨201, recordMetrics "POST" "/api/v1/tasks" 201 duration, .task task⟩)

/-- TaskHandler.GetByID (handler/task.go 118-148). -/
def handleGetByID (st : ServerState) (id : String) (duration : ℚ) :
    ServerState × HandlerResult :=
  match st.repo.getByID id with
  | .error e =>
    if e = .taskNotFound then
      (st, ⟨404, recordMetrics "GET" "/api/v1/tasks/{id}" 404 duration,
        .errorMessage "task not found"⟩)
    else
      (st, ⟨500, recordMetrics "GET" "/api/v1/tasks/{id}" 500 duration,
        .errorMessage "failed to get task"⟩)
  | .ok task =>
    (st, ⟨200, recordMetrics "GET" "/api/v1/tasks/{id}" 200 duration, .task task⟩)

/-- TaskHandler.Update (handler/task.go 151-189). -/
def handleUpdate (st : ServerState) (id : String) (body : Option UpdateTaskRequest)
    (now : Nat) (duration : ℚ) : ServerState × HandlerResult :=
  match body with
  | none =>
    (st, ⟨400, recordMetrics "PUT" "/api/v1/tasks/{id}" 400 duration,
      .errorMessage "invalid request body"⟩)
  | some req =>
    let res := st.repo.update id now req
    let st1 : ServerState := ⟨res.1, st.nextUuid⟩
    match res.2 with
    | .error e =>
      if e = .taskNotFound then
        (st1, ⟨404, recordMetrics "PUT" "/api/v1/tasks/{id}" 404 duration,
          .errorMessage "task not found"⟩)
      else
        (st1, ⟨500, recordMetrics "PUT" "/api/v1/tasks/{id}" 500 duration,
          .errorMessage "failed to update task"⟩)
    | .ok task =>
      (st1, ⟨200, recordMetrics "PUT" "/api/v1/tasks/{id}" 200 duration, .task task⟩)

/-- TaskHandler.Delete (handler/task.go 192-222). -/
def handleDelete (st : ServerState) (id : String) (duration : ℚ) :
    ServerState × HandlerResult :=
  let res := st.repo.delete id
  let st1 : ServerState := ⟨res.1, st.nextUuid⟩
  match res.2 with
  | .error e =>
    if e = .taskNotFound then
      (st1, ⟨404, recordMetrics "DELETE" "/api/v1/tasks/{id}" 404 duration,
        .errorMessage "task not found"⟩)
    else
      (st1, ⟨500, recordMetrics "DELETE" "/api/v1/tasks/{id}" 500 duration,
        .errorMessage "failed to delete task"⟩)
  | .ok _ =>
    (st1, ⟨204, recordMetrics "DELETE" "/api/v1/tasks/{id}" 204 duration, .empty⟩)

/-! Metric instruments, from internal/telemetry (NewMetrics, InitMeterProvider). -/

/-- Explicit bucket boundaries passed by NewMetrics to
metric.WithExplicitBucketBoundaries (telemetry, NewMetrics, histogram branch),
as exact rationals (seconds). -/
def requestDurationBoundaries : List ℚ :=
  [0.005, 0.01, 0.025, 0.05, 0.1, 0.25, 0.5, 1, 2.5, 5, 10]

/-- Modelled from the spec: the explicit-bucket histogram aggregation performed
by the OpenTelemetry SDK (not part of this repository's source) — boundaries
fixed at construction, each observation appended, cumulative bucket counts
counting observations at or below a boundary. -/
structure Histogram where
  boundaries : List ℚ
  observations : List ℚ
deriving Repr, DecidableEq

/-- Record one observation: the boundaries are untouched, the observation is
appended. -/
def Histogram.record (h : Histogram) (v : ℚ) : Histogram :=
  { h with observations := h.observations ++ [v] }

/-- Cumulative count of the bucket with upper boundary bound: the number of
observations at or below bound. -/
def Histogram.cumulativeCount (h : Histogram) (bound : ℚ) : Nat :=
  (h.observations.filter (fun v => decide (v ≤ bound))).length

/-- The request-duration histogram as constructed by NewMetrics: the fixed
boundaries and no observations yet. -/
def newRequestDurationHistogram : Histogram :=
  ⟨requestDurationBoundaries, []⟩

/-- Outcome of the meter.Int64Counter / Float64Histogram /
Int64ObservableGauge calls inside NewMetrics: each instrument construction
can independently fail (e.g. duplicate name registration). -/
structure Meter where
  int64CounterOk : Bool
  float64HistogramOk : Bool
  int64ObservableGaugeOk : Bool
deriving Repr, DecidableEq

/-- Metrics bundle, from telemetry.Metrics: handles for the three instruments
and the stored task-count callback. -/
structure Metrics where
  requestCounter : Instrument
  requestDuration : Instrument
  tasksGauge : Instrument
  taskCountFunc : Unit → Nat

/-- telemetry.NewMetrics: constructs the three instruments in order, returning
the error of the first failing construction (with no Metrics value), or the
Metrics bundle on success. -/
def NewMetrics (meter : Meter) (taskCountFunc : Unit → Nat) : Except String Metrics :=
  if !meter.int64CounterOk then
    .error "failed to create request counter"
  else if !meter.float64HistogramOk then
    .error "failed to create request duration histogram"
  else if !meter.int64ObservableGaugeOk then
    .error "failed to create tasks gauge"
  else
    .ok { requestCounter := .requestCounter, requestDuration := .requestDuration,
          tasksGauge := .tasksGauge, taskCountFunc := taskCountFunc }

/-- The gauge callback registered by NewMetrics via metric.WithInt64Callback:
one call to o.Observe with the value of the stored taskCountFunc. The returned
list is the sequence of observed values per callback invocation. -/
def tasksGaugeCallback (m : Metrics) : List Nat :=
  [m.taskCountFunc ()]

/-- Periodic-reader export interval configured by InitMeterProvider via
sdkmetric.WithInterval(10 * time.Second), in seconds. -/
def periodicReaderIntervalSeconds : Nat := 10

/-- Outcome of the metrics-construction stage of main. -/
inductive StartupOutcome where
  | exited (code : Nat)
  | serving (m : Metrics)

/-- Metrics-construction stage of main (cmd/server/main.go 76-81): NewMetrics
is called with taskRepo.Count as the gauge callback's source; on error the
process logs and calls os.Exit(1), otherwise it continues with the bundle. -/
def mainMetricsStage (meter : Meter) (repo : TaskRepository) : StartupOutcome :=
  match NewMetrics meter (fun _ => repo.count) with
  | .error _ => .exited 1
  | .ok m => .serving m

/-! Provider shutdown ordering, from cmd/server/main.go. -/

/-- The three telemetry providers initialized by main. -/
inductive TelemetryProvider where
  | tracerProvider
  | meterProvider
  | loggerProvider
deriving Repr, DecidableEq

/-- Order in which main registers the deferred provider shutdowns
(cmd/server/main.go: the defer after InitTracerProvider at line 42, after
InitMeterProvider at line 54, after InitLoggerProvider at line 69). -/
def shutdownDeferRegistration : List TelemetryProvider :=
  [.tracerProvider, .meterProvider, .loggerProvider]

/-- Order in which the deferred shutdowns actually run when main returns: Go
executes deferred calls in last-in-first-out order. -/
def providerShutdownOrder : List TelemetryProvider :=
  shutdownDeferRegistration.reverse

/-! End-to-end scenario, from the handler layer run on a fresh server. -/

/-- Step 1 of the end-to-end scenario: POST a task titled "Learn Go" at time t1
on a fresh server. -/
def e2eCreate (descr : String) (t1 : Nat) (dq : ℚ) : ServerState × HandlerResult :=
  handleCreate ServerState.init (some ⟨"Learn Go", descr⟩) t1 dq

/-- The record step 1 stores and returns. -/
def e2eTask (descr : String) (t1 : Nat) : Task :=
  ⟨uuidGen 0, "Learn Go", descr, false, t1, t1⟩

/-- Step 3 of the end-to-end scenario: PUT done=true on the created task at
time t2. -/
def e2eUpdate (descr : String) (t1 t2 : Nat) (dq : ℚ) : ServerState × HandlerResult :=
  handleUpdate (e2eCreate descr t1 dq).1 (uuidGen 0) (some ⟨"", "", some true⟩) t2 dq

/-- The record step 3 stores and returns. -/
def e2eTaskDone (descr : String) (t1 t2 : Nat) : Task :=
  ⟨uuidGen 0, "Learn Go", descr, true, t1, t2⟩

/-- Step 4 of the end-to-end scenario: DELETE the task. -/
def e2eDelete (descr : String) (t1 t2 : Nat) (dq : ℚ) : ServerState × HandlerResult :=
  handleDelete (e2eUpdate descr t1 t2 dq).1 (uuidGen 0) dq

/-- A handler outcome records exactly the two push-style events of
recordMetrics, attributed with the given method, the given route template and
its own response status. -/
def eventsSpec (res : HandlerResult) (method route : String) (dur : ℚ) : Prop :=
  res.events = recordMetrics method route res.status dur ∧
    countCounterAdds res.events = 1 ∧ countHistRecords res.events = 1

/-- No event in the list pushes to the tasks gauge. -/
def noGaugePush (evs : List MetricEvent) : Prop :=
  ∀ e ∈ evs, e.instrument ≠ Instrument.tasksGauge

/-- Conclusion of the end-to-end scenario: create returns 201 with the fresh
record (done false, equal timestamps), a get returns the same record, the
done-update returns 200 with done true and a strictly later update time,
delete returns 204, and a final get returns 404. -/
def e2eSpecProp (descr : String) (t1 t2 : Nat) (dq : ℚ) : Prop :=
  (e2eCreate descr t1 dq).2.status = 201 ∧
  (e2eCreate descr t1 dq).2.body = .task (e2eTask descr t1) ∧
  (e2eTask descr t1).id = uuidGen 0 ∧
  (e2eTask descr t1).done = false ∧
  (e2eTask descr t1).createdAt = (e2eTask descr t1).updatedAt ∧
  (handleGetByID (e2eCreate descr t1 dq).1 (uuidGen 0) dq).2.status = 200 ∧
  (handleGetByID (e2eCreate descr t1 dq).1 (uuidGen 0) dq).2.body = .task (e2eTask descr t1) ∧
  (e2eUpdate descr t1 t2 dq).2.status = 200 ∧
  (e2eUpdate descr t1 t2 dq).2.body = .task (e2eTaskDone descr t1 t2) ∧
  (e2eTaskDone descr t1 t2).done = true ∧
  (e2eTaskDone descr t1 t2).createdAt < (e2eTaskDone descr t1 t2).updatedAt ∧
  (e2eDelete descr t1 t2 dq).2.status = 204 ∧
  (handleGetByID (e2eDelete descr t1 t2 dq).1 (uuidGen 0) dq).2.status = 404

/-- Sample stored task used to instantiate theorems about Update. -/
def sampleTask : Task := ⟨"a", "T", "D", false, 0, 0⟩

/-- Sample one-task store holding sampleTask under id "a". -/
def sampleRepo : TaskRepository := ⟨[("a", sampleTask)]⟩

/-- Sample update request: no title, no description, done set to true. -/
def sampleUpdateReq : UpdateTaskRequest := ⟨"", "", some true⟩

/-- The record produced by updating sampleTask with sampleUpdateReq at time 5. -/
def sampleTaskDone : Task := ⟨"a", "T", "D", true, 0, 5⟩

/-! Helper lemmas about the store. -/

theorem lookup_eq_none_iff (r : TaskRepository) (k : String) :
    r.lookup k = none ↔ ∀ p ∈ r.tasks, p.1 ≠ k := by
  simp [TaskRepository.lookup, List.find?_eq_none]

theorem lookup_some_mem (r : TaskRepository) (k : String) (t : Task)
    (h : r.lookup k = some t) : (k, t) ∈ r.tasks := by
  unfold TaskRepository.lookup at h
  rcases Option.map_eq_some'.mp h with ⟨p, hfind, hsnd⟩
  have hmem := List.mem_of_find?_eq_some hfind
  have hkey := List.find?_some hfind
  simp only [beq_iff_eq] at hkey
  have hp : p = (k, t) := by
    cases p with
    | mk a b =>
      simp only [Prod.mk.injEq]
      exact ⟨hkey, hsnd⟩
  rwa [hp] at hmem

theorem insert_fresh (r : TaskRepository) (k : String) (v : Task)
    (h : ∀ p ∈ r.tasks, p.1 ≠ k) :
    (r.insert k v).tasks = r.tasks ++ [(k, v)] := by
  unfold TaskRepository.insert
  rw [if_neg]
  simp only [List.any_eq_true, beq_iff_eq]
  push_neg
  exact h

theorem insert_present_map_fst (r : TaskRepository) (k : String) (v : Task)
    (h : r.tasks.any (fun p => p.1 == k) = true) :
    (r.insert k v).tasks.map Prod.fst = r.tasks.map Prod.fst ∧
      (r.insert k v).tasks.length = r.tasks.length := by
  unfold TaskRepository.insert
  rw [if_pos h]
  constructor
  · rw [List.map_map]
    apply List.map_congr_left
    intro p _
    by_cases hpk : p.1 = k
    · simp [hpk]
    · simp [hpk]
  · exact List.length_map _ _

theorem erase_length (l : List (String × Task)) (k : String)
    (hn : (l.map Prod.fst).Nodup) (hm : k ∈ l.map Prod.fst) :
    (l.filter (fun p => !(p.1 == k))).length + 1 = l.length := by
  induction l with
  | nil => simp at hm
  | cons hd tl ih =>
    by_cases hhd : hd.1 = k
    · have htl : ∀ p ∈ tl, ¬(p.1 = k) := by
        intro p hp hpk
        have : hd.1 ∈ tl.map Prod.fst := by
          rw [hhd, ← hpk]
          exact List.mem_map_of_mem Prod.fst hp
        simp only [List.map_cons, List.nodup_cons] at hn
        exact hn.1 this
      have : tl.filter (fun p => !(p.1 == k)) = tl := by
        apply List.filter_eq_self.mpr
        intro p hp
        simp [htl p hp]
      simp [List.filter_cons, hhd, this]
    · have hm2 : k ∈ tl.map Prod.fst := by
        simp only [List.map_cons, List.mem_cons] at hm
        rcases hm with hm | hm
        · exact absurd hm.symm hhd
        · exact hm
      have hn2 : (tl.map Prod.fst).Nodup := by
        simp only [List.map_cons, List.nodup_cons] at hn
        exact hn.2
      have hrec := ih hn2 hm2
      have hb : (hd.1 == k) = false := by simp [hhd]
      simp only [List.filter_cons, hb, Bool.not_false, if_true, List.length_cons]
      omega

theorem uuidGen_length (n : Nat) : (uuidGen n).length = n + 1 := by
  simp [uuidGen, String.length]

theorem good_update_insert (st : TraceState) (id : String) (v : Task) (t : Task)
    (hl : st.repo.lookup id = some t) (h : Good st) :
    Good { st with repo := st.repo.insert id v } := by
  obtain ⟨⟨hlen, hnd⟩, hbal⟩ := h
  have hmem := lookup_some_mem st.repo id t hl
  have hany : st.repo.tasks.any (fun p => p.1 == id) = true := by
    rw [List.any_eq_true]
    exact ⟨(id, t), hmem, by simp⟩
  obtain ⟨hkeys, hlength⟩ := insert_present_map_fst st.repo id v hany
  refine ⟨⟨?_, ?_⟩, ?_⟩
  · intro s hs
    rw [hkeys] at hs
    exact hlen s hs
  · rw [hkeys]
    exact hnd
  · simpa [TaskRepository.count, hlength] using hbal

theorem stepOp_good (st : TraceState) (op : RepoOp) (now : Nat) (h : Good st) :
    Good (stepOp st op now) := by
  obtain ⟨⟨hlen, hnd⟩, hbal⟩ := h
  cases op with
  | createOp req =>
    have hfresh : ∀ p ∈ st.repo.tasks, p.1 ≠ uuidGen st.nextUuid := by
      intro p hp heq
      have hb := hlen p.1 (List.mem_map_of_mem Prod.fst hp)
      rw [heq, uuidGen_length] at hb
      omega
    have hins := insert_fresh st.repo (uuidGen st.nextUuid)
      { id := uuidGen st.nextUuid, title := req.title, description := req.description,
        done := false, createdAt := now, updatedAt := now } hfresh
    have hnotmem : uuidGen st.nextUuid ∉ st.repo.tasks.map Prod.fst := by
      intro hmem
      rcases List.mem_map.mp hmem with ⟨p, hp, hpk⟩
      exact hfresh p hp hpk
    simp only [stepOp, TaskRepository.create]
    refine ⟨⟨?_, ?_⟩, ?_⟩
    · intro s hs
      rw [hins] at hs
      simp only [List.map_append, List.map_cons, List.map_nil, List.mem_append,
        List.mem_cons, List.not_mem_nil, or_false] at hs
      rcases hs with hs | hs
      · exact Nat.le_succ_of_le (hlen s hs)
      · rw [hs, uuidGen_length]
    · rw [hins]
      simp only [List.map_append, List.map_cons, List.map_nil]
      rw [List.nodup_append]
      exact ⟨hnd, List.nodup_singleton _, by simpa using hnotmem⟩
    · simp only [TaskRepository.count, hins, List.length_append, List.length_cons,
        List.length_nil]
      simp only [TaskRepository.count] at hbal
      omega
  | updateOp id req =>
    cases hl : st.repo.lookup id with
    | none =>
      simp only [stepOp, TaskRepository.update, hl]
      exact ⟨⟨hlen, hnd⟩, hbal⟩
    | some t =>
      simp only [stepOp, TaskRepository.update, hl]
      exact good_update_insert st id _ t hl ⟨⟨hlen, hnd⟩, hbal⟩
  | deleteOp id =>
    cases hl : st.repo.lookup id with
    | none =>
      simp only [stepOp, TaskRepository.delete, hl]
      exact ⟨⟨hlen, hnd⟩, hbal⟩
    | some t =>
      have hmem := lookup_some_mem st.repo id t hl
      have hkmem : id ∈ st.repo.tasks.map Prod.fst :=
        List.mem_map_of_mem Prod.fst hmem
      have herase := erase_length st.repo.tasks id hnd hkmem
      simp only [stepOp, TaskRepository.delete, hl, TaskRepository.erase]
      refine ⟨⟨?_, ?_⟩, ?_⟩
      · intro s hs
        rcases List.mem_map.mp hs with ⟨p, hp, hpk⟩
        have hpl := List.mem_of_mem_filter hp
        exact hpk ▸ hlen p.1 (List.mem_map_of_mem Prod.fst hpl)
      · exact hnd.sublist (List.Sublist.map Prod.fst (List.filter_sublist _))
      · simp only [TaskRepository.count] at hbal ⊢
        omega

theorem good_init : Good TraceState.init := by
  refine ⟨⟨?_, ?_⟩, ?_⟩ <;> simp [TraceState.init, TaskRepository.empty, TaskRepository.count]

theorem runFrom_good (ops : List (RepoOp × Nat)) (st : TraceState) (h : Good st) :
    Good (runFrom st ops) := by
  induction ops generalizing st with
  | nil => exact h
  | cons hd tl ih =>
    have h1 := stepOp_good st hd.1 hd.2 h
    simpa [runFrom, List.foldl_cons] using ih _ h1

/-- C2: for every sequence of Create, Update and Delete operations run from the
empty repository, Count() equals the number of records created so far minus the
number successfully deleted — the number of live records — at every point. -/
theorem count_eq_created_sub_deleted (ops : List (RepoOp × Nat)) :
    (runTrace ops).deleted ≤ (runTrace ops).created ∧
    (runTrace ops).repo.count = (runTrace ops).created - (runTrace ops).deleted := by
  have h := runFrom_good ops TraceState.init good_init
  have hbal : (runTrace ops).repo.count + (runTrace ops).deleted = (runTrace ops).created :=
    h.2
  omega

/-! Helper lemmas about the handler layer's metric events. -/

theorem eventsSpec_of_eq (res : HandlerResult) (method route : String) (d : ℚ)
    (h : res.events = recordMetrics method route res.status d) :
    eventsSpec res method route d := by
  refine ⟨h, ?_, ?_⟩ <;> rw [h] <;>
    simp [recordMetrics, countCounterAdds, countHistRecords, List.filter]

theorem recordMetrics_noGaugePush (method route : String) (s : Nat) (d : ℚ) :
    noGaugePush (recordMetrics method route s d) := by
  intro e he
  simp only [recordMetrics, List.mem_cons, List.not_mem_nil, or_false] at he
  rcases he with he | he <;> subst he <;> simp [MetricEvent.instrument]

theorem handleList_events (st : ServerState) (d : ℚ) :
    (handleList st d).2.events =
      recordMetrics "GET" "/api/v1/tasks" (handleList st d).2.status d := rfl

theorem handleCreate_events (st : ServerState) (body : Option CreateTaskRequest)
    (now : Nat) (d : ℚ) :
    (handleCreate st body now d).2.events =
      recordMetrics "POST" "/api/v1/tasks" (handleCreate st body now d).2.status d := by
  cases body with
  | none => rfl
  | some req =>
    by_cases ht : req.title = "" <;>
      simp [handleCreate, CreateTaskRequest.validate, ht, TaskRepository.create]

theorem handleGetByID_events (st : ServerState) (id : String) (d : ℚ) :
    (handleGetByID st id d).2.events =
      recordMetrics "GET" "/api/v1/tasks/{id}" (handleGetByID st id d).2.status d := by
  cases hl : st.repo.lookup id <;>
    simp [handleGetByID, TaskRepository.getByID, hl]

theorem handleUpdate_events (st : ServerState) (id : String)
    (body : Option UpdateTaskRequest) (now : Nat) (d : ℚ) :
    (handleUpdate st id body now d).2.events =
      recordMetrics "PUT" "/api/v1/tasks/{id}" (handleUpdate st id body now d).2.status d := by
  cases body with
  | none => rfl
  | some req =>
    cases hl : st.repo.lookup id <;>
      simp [handleUpdate, TaskRepository.update, hl]

theorem handleDelete_events (st : ServerState) (id : String) (d : ℚ) :
    (handleDelete st id d).2.events =
      recordMetrics "DELETE" "/api/v1/tasks/{id}" (handleDelete st id d).2.status d := by
  cases hl : st.repo.lookup id <;>
    simp [handleDelete, TaskRepository.delete, hl]

/-- C3: every handler operation, on every execution path, records exactly one
request-counter increment and one duration observation, attributed with the
HTTP method, the route template (a fixed string, never the raw request path)
and the response status code. -/
theorem handlers_one_counter_one_duration (st : ServerState) (id : String)
    (cbody : Option CreateTaskRequest) (ubody : Option UpdateTaskRequest)
    (now : Nat) (dur : ℚ) :
    eventsSpec (handleList st dur).2 "GET" "/api/v1/tasks" dur ∧
    eventsSpec (handleCreate st cbody now dur).2 "POST" "/api/v1/tasks" dur ∧
    eventsSpec (handleGetByID st id dur).2 "GET" "/api/v1/tasks/{id}" dur ∧
    eventsSpec (handleUpdate st id ubody now dur).2 "PUT" "/api/v1/tasks/{id}" dur ∧
    eventsSpec (handleDelete st id dur).2 "DELETE" "/api/v1/tasks/{id}" dur :=
  ⟨eventsSpec_of_eq _ _ _ _ (handleList_events st dur),
   eventsSpec_of_eq _ _ _ _ (handleCreate_events st cbody now dur),
   eventsSpec_of_eq _ _ _ _ (handleGetByID_events st id dur),
   eventsSpec_of_eq _ _ _ _ (handleUpdate_events st id ubody now dur),
   eventsSpec_of_eq _ _ _ _ (handleDelete_events st id dur)⟩

/-- C10: repository Create and List always return without error, so the
internal-error (500) branches of the List and Create handlers can never fire:
List always answers 200 and Create never answers 500. -/
theorem create_list_never_fail (r : TaskRepository) (uuid : String) (now : Nat)
    (req : CreateTaskRequest) (st : ServerState) (body : Option CreateTaskRequest)
    (dur : ℚ) :
    (∃ t, (r.create uuid now req).2 = .ok t) ∧
    (∃ ts, r.list = .ok ts) ∧
    (handleList st dur).2.status = 200 ∧
    (handleCreate st body now dur).2.status ≠ 500 := by
  refine ⟨⟨_, rfl⟩, ⟨_, rfl⟩, rfl, ?_⟩
  cases body with
  | none => simp [handleCreate]
  | some req2 =>
    by_cases ht : req2.title = "" <;>
      simp [handleCreate, CreateTaskRequest.validate, ht, TaskRepository.create]

/-- C5: GetByID, Update and Delete answer the not-found error exactly when the
id is absent from the store, and a not-found outcome leaves the store
unchanged. -/
theorem not_found_iff_absent (r : TaskRepository) (id : String) (now : Nat)
    (req : UpdateTaskRequest) :
    (r.getByID id = .error .taskNotFound ↔ r.lookup id = none) ∧
    ((r.update id now req).2 = .error .taskNotFound ↔ r.lookup id = none) ∧
    ((r.delete id).2 = .error .taskNotFound ↔ r.lookup id = none) ∧
    (r.lookup id = none →
      (r.update id now req).1 = r ∧ (r.delete id).1 = r) := by
  cases hl : r.lookup id <;>
    simp [TaskRepository.getByID, TaskRepository.update, TaskRepository.delete, hl]

/-- Witness for the not-found theorem at a concrete absent id on the empty
store. -/
theorem not_found_iff_absent_witness :
    (TaskRepository.empty.update "a" 0 ⟨"", "", none⟩).1 = TaskRepository.empty ∧
    (TaskRepository.empty.delete "a").1 = TaskRepository.empty :=
  (not_found_iff_absent TaskRepository.empty "a" 0 ⟨"", "", none⟩).2.2.2 rfl

/-- C9: for an existing record, Update applies only the supplied partial
fields: an empty Title or Description leaves that field unchanged (so neither
can be set to empty via Update), a nil Done leaves Done unchanged, and the
record's ID and CreatedAt are never modified. -/
theorem update_partial_fields (r : TaskRepository) (id : String) (now : Nat)
    (req : UpdateTaskRequest) (t t2 : Task)
    (h : r.lookup id = some t)
    (h2 : (r.update id now req).2 = .ok t2) :
    t2.id = t.id ∧ t2.createdAt = t.createdAt ∧ t2.updatedAt = now ∧
    (req.title = "" → t2.title = t.title) ∧
    (req.description = "" → t2.description = t.description) ∧
    (req.done = none → t2.done = t.done) ∧
    (t2.title = "" → t.title = "") ∧
    (t2.description = "" → t.description = "") := by
  simp only [TaskRepository.update, h, Except.ok.injEq] at h2
  subst h2
  rcases hdo : req.done with _ | b <;>
    by_cases ht : req.title = "" <;>
      by_cases hd2 : req.description = "" <;>
        simp [ht, hd2, hdo]

/-- Witness for the partial-update theorem on the sample store. -/
theorem update_partial_fields_witness :
    sampleRepo.lookup "a" = some sampleTask ∧
    (sampleRepo.update "a" 5 sampleUpdateReq).2 = .ok sampleTaskDone ∧
    (sampleTaskDone.id = sampleTask.id ∧
     sampleTaskDone.createdAt = sampleTask.createdAt ∧
     sampleTaskDone.updatedAt = 5 ∧
     (sampleUpdateReq.title = "" → sampleTaskDone.title = sampleTask.title) ∧
     (sampleUpdateReq.description = "" →
       sampleTaskDone.description = sampleTask.description) ∧
     (sampleUpdateReq.done = none → sampleTaskDone.done = sampleTask.done) ∧
     (sampleTaskDone.title = "" → sampleTask.title = "") ∧
     (sampleTaskDone.description = "" → sampleTask.description = "")) :=
  ⟨rfl, rfl, update_partial_fields sampleRepo "a" 5 sampleUpdateReq
    sampleTask sampleTaskDone rfl rfl⟩

/-- C6: the end-to-end lifecycle on a fresh server — create answers 201 with a
fresh id, done false and equal timestamps; a get returns the same record; the
done-update answers 200 with done true and a strictly later update time;
delete answers 204; a final get answers 404. The update must happen at a
strictly later clock tick than the create. -/
theorem e2e_crud_lifecycle (descr : String) (t1 t2 : Nat) (dq : ℚ) (h : t1 < t2) :
    e2eSpecProp descr t1 t2 dq := by
  simp [e2eSpecProp, e2eCreate, e2eUpdate, e2eDelete, e2eTask, e2eTaskDone,
    handleCreate, handleGetByID, handleUpdate, handleDelete,
    TaskRepository.create, TaskRepository.getByID, TaskRepository.update,
    TaskRepository.delete, TaskRepository.insert, TaskRepository.erase,
    TaskRepository.lookup, TaskRepository.list, CreateTaskRequest.validate,
    ServerState.init, TaskRepository.empty, List.find?, List.any, h]

/-- Witness for the end-to-end lifecycle at concrete times 0 and 1. -/
theorem e2e_crud_lifecycle_witness : (0 : Nat) < 1 ∧ e2eSpecProp "x" 0 1 0 :=
  ⟨Nat.zero_lt_one, e2e_crud_lifecycle "x" 0 1 0 Nat.zero_lt_one⟩

/-- C4: the request-duration histogram is built with exactly the fixed bucket
boundaries {0.005, 0.01, 0.025, 0.05, 0.1, 0.25, 0.5, 1, 2.5, 5, 10}, an
observation never changes the boundaries, every cumulative bucket count is
monotonically non-decreasing under new observations, and an observation of
0.2 s increments the cumulative count of the 0.25 bucket by one. -/
theorem histogram_fixed_buckets :
    newRequestDurationHistogram.boundaries =
      [0.005, 0.01, 0.025, 0.05, 0.1, 0.25, 0.5, 1, 2.5, 5, 10] ∧
    (∀ (h : Histogram) (v : ℚ), (h.record v).boundaries = h.boundaries) ∧
    (∀ (h : Histogram) (v bound : ℚ),
      h.cumulativeCount bound ≤ (h.record v).cumulativeCount bound) ∧
    (∀ h : Histogram,
      (h.record 0.2).cumulativeCount 0.25 = h.cumulativeCount 0.25 + 1) := by
  refine ⟨rfl, fun h v => rfl, fun h v bound => ?_, fun h => ?_⟩
  · simp only [Histogram.record, Histogram.cumulativeCount, List.filter_append,
      List.length_append]
    omega
  · simp only [Histogram.record, Histogram.cumulativeCount, List.filter_append,
      List.length_append]
    norm_num

/-- C7: if construction of any of the three instruments fails, NewMetrics
returns an error and no Metrics value, and main aborts startup with exit
code 1 instead of serving. -/
theorem metrics_failure_aborts_startup (meter : Meter) (f : Unit → Nat)
    (repo : TaskRepository)
    (h : meter.int64CounterOk = false ∨ meter.float64HistogramOk = false ∨
      meter.int64ObservableGaugeOk = false) :
    (∃ msg, NewMetrics meter f = .error msg) ∧
    (∀ m, NewMetrics meter f ≠ .ok m) ∧
    mainMetricsStage meter repo = .exited 1 := by
  obtain ⟨a, b, c⟩ := meter
  simp only at h
  cases a <;> cases b <;> cases c <;>
    simp_all [NewMetrics, mainMetricsStage]

/-- Witness for the fatal-metrics-failure theorem with a failing counter
construction. -/
theorem metrics_failure_aborts_startup_witness :
    ((⟨false, true, true⟩ : Meter).int64CounterOk = false ∨
      (⟨false, true, true⟩ : Meter).float64HistogramOk = false ∨
      (⟨false, true, true⟩ : Meter).int64ObservableGaugeOk = false) ∧
    ((∃ msg, NewMetrics ⟨false, true, true⟩ (fun _ => 0) = .error msg) ∧
     (∀ m, NewMetrics ⟨false, true, true⟩ (fun _ => 0) ≠ .ok m) ∧
     mainMetricsStage ⟨false, true, true⟩ TaskRepository.empty = .exited 1) :=
  ⟨Or.inl rfl,
   metrics_failure_aborts_startup ⟨false, true, true⟩ (fun _ => 0)
     TaskRepository.empty (Or.inl rfl)⟩

theorem newMetrics_ok_taskCountFunc (meter : Meter) (g : Unit → Nat) (m : Metrics)
    (h : NewMetrics meter g = .ok m) : m.taskCountFunc = g := by
  unfold NewMetrics at h
  split_ifs at h
  · simp_all
    rw [← h]

/-- C8: the tasks gauge is pull-only — the periodic exporter interval is fixed
at 10 seconds, the registered callback observes exactly the stored count
callback (wired by main to the repository's Count), and no handler path ever
pushes to the gauge. -/
theorem tasks_gauge_pull_only (meter : Meter) (f : Unit → Nat) (m m2 : Metrics)
    (repo : TaskRepository) (st : ServerState) (id : String)
    (cbody : Option CreateTaskRequest) (ubody : Option UpdateTaskRequest)
    (now : Nat) (dur : ℚ)
    (h : NewMetrics meter f = .ok m)
    (h2 : mainMetricsStage meter repo = .serving m2) :
    periodicReaderIntervalSeconds = 10 ∧
    tasksGaugeCallback m = [f ()] ∧
    tasksGaugeCallback m2 = [repo.count] ∧
    noGaugePush (handleList st dur).2.events ∧
    noGaugePush (handleCreate st cbody now dur).2.events ∧
    noGaugePush (handleGetByID st id dur).2.events ∧
    noGaugePush (handleUpdate st id ubody now dur).2.events ∧
    noGaugePush (handleDelete st id dur).2.events := by
  have hm2 : NewMetrics meter (fun _ => repo.count) = .ok m2 := by
    unfold mainMetricsStage at h2
    cases hnew : NewMetrics meter (fun _ => repo.count) with
    | error msg => rw [hnew] at h2; cases h2
    | ok mm => rw [hnew] at h2; cases h2; rfl
  refine ⟨rfl, ?_, ?_, ?_, ?_, ?_, ?_, ?_⟩
  · rw [tasksGaugeCallback, newMetrics_ok_taskCountFunc meter f m h]
  · rw [tasksGaugeCallback, newMetrics_ok_taskCountFunc meter _ m2 hm2]
  · rw [handleList_events]
    exact recordMetrics_noGaugePush _ _ _ _
  · rw [handleCreate_events]
    exact recordMetrics_noGaugePush _ _ _ _
  · rw [handleGetByID_events]
    exact recordMetrics_noGaugePush _ _ _ _
  · rw [handleUpdate_events]
    exact recordMetrics_noGaugePush _ _ _ _
  · rw [handleDelete_events]
    exact recordMetrics_noGaugePush _ _ _ _

/-- Witness for the pull-only gauge theorem with all instrument constructions
succeeding, on the empty store. -/
theorem tasks_gauge_pull_only_witness :
    NewMetrics ⟨true, true, true⟩ (fun _ => 5) =
      .ok ⟨.requestCounter, .requestDuration, .tasksGauge, fun _ => 5⟩ ∧
    mainMetricsStage ⟨true, true, true⟩ TaskRepository.empty =
      .serving ⟨.requestCounter, .requestDuration, .tasksGauge,
        fun _ => TaskRepository.empty.count⟩ ∧
    (periodicReaderIntervalSeconds = 10 ∧
     tasksGaugeCallback ⟨.requestCounter, .requestDuration, .tasksGauge,
       fun _ => 5⟩ = [5] ∧
     tasksGaugeCallback ⟨.requestCounter, .requestDuration, .tasksGauge,
       fun _ => TaskRepository.empty.count⟩ = [TaskRepository.empty.count] ∧
     noGaugePush (handleList ServerState.init 0).2.events ∧
     noGaugePush (handleCreate ServerState.init none 0 0).2.events ∧
     noGaugePush (handleGetByID ServerState.init "a" 0).2.events ∧
     noGaugePush (handleUpdate ServerState.init "a" none 0 0).2.events ∧
     noGaugePush (handleDelete ServerState.init "a" 0).2.events) :=
  ⟨rfl, rfl,
   tasks_gauge_pull_only ⟨true, true, true⟩ (fun _ => 5)
     ⟨.requestCounter, .requestDuration, .tasksGauge, fun _ => 5⟩
     ⟨.requestCounter, .requestDuration, .tasksGauge,
       fun _ => TaskRepository.empty.count⟩
     TaskRepository.empty ServerState.init "a" none none 0 0 rfl rfl⟩

/-- C1 as stated is false of the code: the logger provider is NOT the last of
the three providers to shut down — deferred shutdowns run in LIFO order, so
the logger provider (whose defer is registered last) runs first. -/
theorem logger_not_shutdown_last :
    ¬ providerShutdownOrder.getLast? = some TelemetryProvider.loggerProvider := by
  decide

/-- C1 amended: at process shutdown the logger provider shuts down first, then
the meter provider, and the tracer provider shuts down last, because Go runs
the deferred shutdowns in reverse registration order. -/
theorem logger_shutdown_first :
    providerShutdownOrder =
      [TelemetryProvider.loggerProvider, TelemetryProvider.meterProvider,
        TelemetryProvider.tracerProvider] ∧
    providerShutdownOrder.head? = some TelemetryProvider.loggerProvider := by
  decide

end GoOtel
